import Mathlib

/-!
Verification of the AI-UI-refactoring web application.

This file gives a shallow embedding of the parts of the application that the
specification's testable properties speak about:

* the completion client (`getUIImprovementFromCode` in the Gemini service
  module): trimming the backend reply, the brace shape check, the parsed
  `language` check, and the outer catch that wraps every failure into one
  generic message;
* the submit handler of the input form (`handleSubmit` in `InputForm`):
  the empty-source guard, the pending-entry state updates, and the settling
  of the request with the client's result;
* the prompt template (`fullPrompt` in the Gemini service module);
* the live-preview document builder (`iframeContent` in `OutputDisplay`),
  for both the `tsx` and the `html` branch, with its template strings
  reproduced byte for byte.

JavaScript runtime primitives that are not code of this repository
(`JSON.parse`, property access on parsed values, string truthiness) are
modelled explicitly: a backend reply is carried together with the result the
host JSON parser produced on its trimmed text (`none` when parsing threw).
-/

set_option maxRecDepth 40000

namespace UIRefactor

/-- A JSON value as produced by the host `JSON.parse`. Objects carry their
key/value pairs in order; a parsed object has distinct keys. -/
inductive Json where
  | null
  | bool (b : Bool)
  | num (n : Int)
  | str (s : String)
  | arr (xs : List Json)
  | obj (fields : List (String × Json))
deriving Repr

/-- A JavaScript value as seen by the callers of the completion client:
either `undefined` (a missing property) or a JSON value. -/
inductive JsVal where
  | undefined
  | val (j : Json)
deriving Repr

/-- JavaScript property access `j.k` on a parsed JSON value: the value bound
to the key for objects, `undefined` otherwise (missing keys and non-object
values). -/
def Json.getProp (j : Json) (k : String) : JsVal :=
  match j with
  | .obj fields =>
    match fields.find? (fun p => p.1 == k) with
    | some p => .val p.2
    | none => .undefined
  | _ => .undefined

/-- Strict equality `v === s` of a JavaScript value against a string
literal, as used by the language check of the completion client. -/
def JsVal.isStr (v : JsVal) (s : String) : Bool :=
  match v with
  | .val (.str t) => t == s
  | _ => false

/-- JavaScript truthiness of a JSON value: `false`, `0`, `""` and `null`
are falsy, arrays and objects are truthy. -/
def Json.truthy : Json → Bool
  | .null => false
  | .bool b => b
  | .num n => n != 0
  | .str s => s != ""
  | .arr _ => true
  | .obj _ => true

/-- JavaScript truthiness of a JavaScript value: `undefined` is falsy. -/
def JsVal.truthy : JsVal → Bool
  | .undefined => false
  | .val j => j.truthy

/-- Decides whether the first character list is a prefix of the second. -/
def isPrefixOfCh : List Char → List Char → Bool
  | [], _ => true
  | _ :: _, [] => false
  | c :: cs, d :: ds => c == d && isPrefixOfCh cs ds

/-- The JavaScript `String.prototype.trim`: strip leading and trailing
whitespace. -/
def jsTrim (s : String) : String :=
  String.mk (((s.data.dropWhile Char.isWhitespace).reverse.dropWhile
    Char.isWhitespace).reverse)

/-- The JavaScript `String.prototype.startsWith`. -/
def jsStartsWith (s t : String) : Bool := isPrefixOfCh t.data s.data

/-- The JavaScript `String.prototype.endsWith`. -/
def jsEndsWith (s t : String) : Bool := isPrefixOfCh t.data.reverse s.data.reverse

/-- The message of the error thrown when the parsed `language` field is
neither accepted tag (Gemini service module, language check). -/
def invalidLanguageMsg : String := "AI returned an invalid language type."

/-- The message of the error thrown when the trimmed reply text is not a
single brace-delimited object (Gemini service module, shape check). -/
def invalidResponseMsg : String :=
  "Received an invalid response from the AI. It might have been too complex to process."

/-- The message of the error thrown by the outer catch of
`getUIImprovementFromCode`, which wraps every failure inside the function
body. -/
def refactorFailedMsg : String :=
  "Failed to get UI improvement from code. The AI may have been unable to process the request."

/-- The inline validation message set by `handleSubmit` when the trimmed
source code is empty. -/
def emptyCodeErrorMsg : String := "Please provide some component code to refactor."

/-- The fallback message used by `handleSubmit` when a caught error carries
an empty (falsy) message. -/
def unexpectedErrorMsg : String := "An unexpected error occurred."

/-- A failure raised inside the `try` block of `getUIImprovementFromCode`:
the explicit invalid-response and invalid-language throws, or the host
`JSON.parse` throwing on malformed text. -/
inductive InnerFailure where
  | invalidResponse
  | invalidLanguage
  | parseThrown
deriving DecidableEq, Repr

/-- The message carried by an inner failure; the `JSON.parse` exception
message is host-generated, not a string of this repository. -/
def InnerFailure.message : InnerFailure → Option String
  | .invalidResponse => some invalidResponseMsg
  | .invalidLanguage => some invalidLanguageMsg
  | .parseThrown => none

/-- The outcome of the `generateContent` call as observed by the completion
client: either a reply, carried together with what the host `JSON.parse`
produced on its trimmed text (`none` when parsing threw), or a rejection of
the network call itself. -/
inductive CallOutcome where
  | reply (text : String) (parsed : Option Json)
  | networkError

/-- The body of the `try` block of `getUIImprovementFromCode`: trim the
reply text, require it to start with `{` and end with `}`, parse it, and
require the parsed `language` property to be strictly equal to `'tsx'` or
`'html'`; on success the parsed object is returned unchanged. -/
def clientTryBody (text : String) (parsed : Option Json) : Except InnerFailure Json :=
  let jsonStr := jsTrim text
  if jsStartsWith jsonStr "\x7b" && jsEndsWith jsonStr "\x7d" then
    match parsed with
    | some result =>
      if !(result.getProp "language").isStr "tsx"
          && !(result.getProp "language").isStr "html" then
        Except.error InnerFailure.invalidLanguage
      else
        Except.ok result
    | none => Except.error InnerFailure.parseThrown
  else
    Except.error InnerFailure.invalidResponse

/-- The completion client `getUIImprovementFromCode`: the outer catch wraps
every failure of the try body, and the rejection of the network call
itself, into the single generic failure message. -/
def getUIImprovementFromCode : CallOutcome → Except String Json
  | CallOutcome.networkError => Except.error refactorFailedMsg
  | CallOutcome.reply text parsed =>
    match clientTryBody text parsed with
    | Except.ok result => Except.ok result
    | Except.error _ => Except.error refactorFailedMsg

/-- The state held by the `InputForm` component: the three input fields,
the four result fields, the loading flag and the error slot. The result
fields hold JavaScript values because the success path stores whatever the
parsed reply object carries. -/
structure FormState where
  userCode : String
  refactorPrompt : String
  stylePrompt : String
  improvedCode : JsVal
  explanation : JsVal
  language : JsVal
  dependencies : JsVal
  isLoading : Bool
  error : Option String

/-- The initial `useState` values of `InputForm`. -/
def initialState : FormState :=
  { userCode := ""
    refactorPrompt := ""
    stylePrompt := ""
    improvedCode := JsVal.val (Json.str "")
    explanation := JsVal.val (Json.str "")
    language := JsVal.val (Json.str "tsx")
    dependencies := JsVal.val (Json.arr [])
    isLoading := false
    error := none }

/-- The state updates `handleSubmit` performs after the guard passes and
before awaiting the completion client: set loading, clear the error, clear
the improved code, the explanation and the dependencies. The `language`
field has no corresponding update in the source. -/
def submitPending (s : FormState) : FormState :=
  { s with
    isLoading := true
    error := none
    improvedCode := JsVal.val (Json.str "")
    explanation := JsVal.val (Json.str "")
    dependencies := JsVal.val (Json.arr []) }

/-- The settling of the awaited completion call in `handleSubmit`: on
success the four destructured properties of the returned object are stored;
on failure the caught error's message (with a fallback for a falsy message)
is stored; `finally` clears the loading flag. -/
def settleOutcome (p : FormState) (outcome : CallOutcome) : FormState :=
  match getUIImprovementFromCode outcome with
  | Except.ok result =>
    { p with
      improvedCode := result.getProp "improvedCode"
      explanation := result.getProp "explanation"
      language := result.getProp "language"
      dependencies := result.getProp "dependencies"
      isLoading := false }
  | Except.error msg =>
    { p with
      error := some (if msg = "" then unexpectedErrorMsg else msg)
      isLoading := false }

/-- The submit handler of `InputForm`: reject when the trimmed source code
is empty (falsy), otherwise enter the pending state and settle with the
completion call's outcome. -/
def handleSubmit (s : FormState) (outcome : CallOutcome) : FormState :=
  if jsTrim s.userCode = "" then
    { s with error := some emptyCodeErrorMsg }
  else
    settleOutcome (submitPending s) outcome

/-- The enabling condition of the submit button,
`disabled = !userCode or isLoading` negated. -/
def submitEnabled (s : FormState) : Bool :=
  !(s.userCode == "") && !s.isLoading

/-- The request lifecycle state the output column displays. -/
inductive RequestState where
  | idle
  | pending
  | failed (msg : String)
  | succeeded
deriving DecidableEq, Repr

/-- The request state `OutputDisplay.renderContent` derives from the form
state, in the source's branch order: loading first, then the error slot,
then truthiness of the improved code. -/
def requestStateOf (s : FormState) : RequestState :=
  if s.isLoading then RequestState.pending
  else
    match s.error with
    | some m => RequestState.failed m
    | none =>
      if s.improvedCode.truthy then RequestState.succeeded else RequestState.idle

/-- Concrete prior-success state used to examine the pending-entry updates:
a previous `html` result is on screen and new source code has been typed. -/
def c4state : FormState :=
  { initialState with
    userCode := "<div>x</div>"
    improvedCode := JsVal.val (Json.str "<div>old</div>")
    explanation := JsVal.val (Json.str "old explanation")
    language := JsVal.val (Json.str "html")
    dependencies := JsVal.val (Json.arr [Json.str "npm install clsx"]) }

/-- Concrete state whose source code is a single blank: literally non-empty
but empty after trimming. -/
def c5state : FormState := { initialState with userCode := " " }

/-- Concrete state with non-empty source code, ready to submit. -/
def submitReady : FormState := { initialState with userCode := "<div>x</div>" }

/-- Concrete backend reply text: a brace-delimited object whose `language`
field is neither accepted tag. -/
def c1text : String :=
  "\x7b\"language\": \"css\", \"improvedCode\": \"x\", \"explanation\": \"y\", \"dependencies\": []\x7d"

/-- The value the host JSON parser produces on `c1text`. -/
def c1json : Json :=
  Json.obj [("language", Json.str "css"), ("improvedCode", Json.str "x"),
    ("explanation", Json.str "y"), ("dependencies", Json.arr [])]

/-- Concrete backend reply text that is prose, not a JSON object; the host
JSON parser throws on it. -/
def c2text : String := "Sorry, I could not produce JSON for that request."

/-- Concrete well-formed backend reply text with `language` equal to
`'html'` and all three other fields present. -/
def c3text : String :=
  "\x7b\"language\": \"html\", \"improvedCode\": \"<button class=\\\"btn\\\">Click</button>\", \"explanation\": \"Modernized the button.\", \"dependencies\": []\x7d"

/-- The value the host JSON parser produces on `c3text`. -/
def c3json : Json :=
  Json.obj [("language", Json.str "html"),
    ("improvedCode", Json.str "<button class=\"btn\">Click</button>"),
    ("explanation", Json.str "Modernized the button."),
    ("dependencies", Json.arr [])]

/-- The placeholder substituted for an empty refactor request by the
falsy-or in the prompt template. -/
def defaultRefactorRequest : String :=
  "No specific request provided. Focus on general UI/UX improvements."

/-- The placeholder substituted for an empty style request by the falsy-or
in the prompt template. -/
def defaultStyleRequest : String :=
  "No specific style provided. Use your best judgment for a modern, clean design."

/-- The prompt template text before the `userCode` interpolation. -/
def promptT1 : String := "\n      The user has provided a frontend component. Your task is to identify its language, refactor it based on their requests, and follow all rules in the system instruction.\n\n      **User\x27s Original Code:**\n      ```\n      "

/-- The prompt template text between the `userCode` and the refactor-request
interpolations. -/
def promptT2 : String := "\n      ```\n\n      ---\n\n      **User\x27s Refactor Request:** \n      \""

/-- The prompt template text between the refactor-request and the
target-style interpolations. -/
def promptT3 : String := "\"\n\n      **User\x27s Target Style:**\n      \""

/-- The prompt template text after the target-style interpolation. -/
def promptT4 : String := "\"\n\n      ---\n\n      Based on all of the above, please identify the language, rewrite the code, provide an explanation for your changes, and list any required dependencies.\n    "

/-- The prompt composer `fullPrompt` of the Gemini service module: the
template literal with its three interpolations; an empty (falsy) refactor
or style field falls back to the fixed placeholder text. -/
def fullPrompt (userCode refactorPrompt stylePrompt : String) : String :=
  promptT1 ++ userCode ++ promptT2
    ++ (if refactorPrompt = "" then defaultRefactorRequest else refactorPrompt)
    ++ promptT3
    ++ (if stylePrompt = "" then defaultStyleRequest else stylePrompt)
    ++ promptT4

/-- The display theme. -/
inductive Theme where
  | light
  | dark
deriving DecidableEq, Repr

/-- The `tsx` preview template text before the `htmlClass` interpolation. -/
def tsxT1 : String := "\n                <html "

/-- The `tsx` preview template text between the `htmlClass` and `bodyBg`
interpolations: the Tailwind, React, ReactDOM and Babel script tags and the
start of the body style. -/
def tsxT2 : String := ">\n                    <head>\n                        <script src=\"https://cdn.tailwindcss.com\"></script>\n                        <script>\n                            tailwind.config = \x7b darkMode: \x27class\x27 \x7d\n                        </script>\n                        <script src=\"https://unpkg.com/react@18/umd/react.development.js\"></script>\n                        <script src=\"https://unpkg.com/react-dom@18/umd/react-dom.development.js\"></script>\n                        <script src=\"https://unpkg.com/@babel/standalone/babel.min.js\"></script>\n                        <style>\n                            body \x7b \n                                margin: 0; \n                                display: flex; \n                                justify-content: center; \n                                align-items: center; \n                                min-height: 100vh; \n                                background-color: "

/-- The `tsx` preview template text between the `bodyBg` and `textColor`
interpolations. -/
def tsxT3 : String := "; \n                                color: "

/-- The `tsx` preview template text between the `textColor` and `code`
interpolations: the rest of the style, the root node, and the opening of
the transformable script block up to and including `try`. -/
def tsxT4 : String := ";\n                                padding: 1rem; \n                                font-family: sans-serif;\n                            \x7d\n                        </style>\n                    </head>\n                    <body>\n                        <div id=\"root\"></div>\n                        <script type=\"text/babel\">\n                            try \x7b\n                                "

/-- The `tsx` preview template text after the `code` interpolation: the
existence check of `RefactoredComponent`, the mount, the inline
missing-identifier error, and the catch displaying the thrown message. -/
def tsxT5 : String := "\n                                if (typeof RefactoredComponent !== \x27undefined\x27) \x7b\n                                    const container = document.getElementById(\x27root\x27);\n                                    const root = ReactDOM.createRoot(container);\n                                    root.render(<RefactoredComponent />);\n                                \x7d else \x7b\n                                     document.getElementById(\x27root\x27).innerHTML = \x27<div style=\"color: #f97316; font-family: monospace; padding: 1rem;\">Error: RefactoredComponent function not found in the generated code.</div>\x27;\n                                \x7d\n                            \x7d catch(e) \x7b\n                                document.getElementById(\x27root\x27).innerHTML = \x27<div style=\"color: #ef4444; font-family: monospace; padding: 1rem;\"><strong>Script Error:</strong><br/>\x27 + e.message + \x27</div>\x27;\n                            \x7d\n                        </script>\n                    </body>\n                </html>\n            "

/-- The `html` preview template text before the `htmlClass` interpolation. -/
def htmlT1 : String := "\n                <html "

/-- The `html` preview template text between the `htmlClass` and `bodyBg`
interpolations: only the Tailwind script tag and the start of the body
style. -/
def htmlT2 : String := ">\n                    <head>\n                        <script src=\"https://cdn.tailwindcss.com\"></script>\n                         <script>\n                            tailwind.config = \x7b darkMode: \x27class\x27 \x7d\n                        </script>\n                        <style>\n                           body \x7b \n                                padding: 1rem; \n                                background-color: "

/-- The `html` preview template text between the `bodyBg` and `textColor`
interpolations. -/
def htmlT3 : String := "; \n                                color: "

/-- The `html` preview template text between the `textColor` and `code`
interpolations, ending inside the document body. -/
def htmlT4 : String := ";\n                                font-family: sans-serif;\n                            \x7d\n                        </style>\n                    </head>\n                    <body>\n                        "

/-- The `html` preview template text after the `code` interpolation: just
the closing tags. -/
def htmlT5 : String := "\n                    </body>\n                </html>\n            "

/-- The preview document builder `iframeContent` of `LivePreview`: the
theme-derived interpolation values, then the `tsx` template when the
language is `'tsx'` and the `html` template otherwise. -/
def iframeContent (language code : String) (theme : Theme) : String :=
  let htmlClass := if theme = Theme.dark then "class=\"dark\"" else ""
  let bodyBg := if theme = Theme.dark then "#0f172a" else "#ffffff"
  let textColor := if theme = Theme.dark then "#cbd5e1" else "#334155"
  if language = "tsx" then
    tsxT1 ++ htmlClass ++ tsxT2 ++ bodyBg ++ tsxT3 ++ textColor ++ tsxT4 ++ code ++ tsxT5
  else
    htmlT1 ++ htmlClass ++ htmlT2 ++ bodyBg ++ htmlT3 ++ textColor ++ htmlT4 ++ code ++ htmlT5

/-- The part of the constructed `tsx` preview document that precedes the
interpolated code. -/
def tsxDocPre (theme : Theme) : String :=
  let htmlClass := if theme = Theme.dark then "class=\"dark\"" else ""
  let bodyBg := if theme = Theme.dark then "#0f172a" else "#ffffff"
  let textColor := if theme = Theme.dark then "#cbd5e1" else "#334155"
  tsxT1 ++ htmlClass ++ tsxT2 ++ bodyBg ++ tsxT3 ++ textColor ++ tsxT4

/-- The part of the constructed `tsx` preview document that follows the
interpolated code. -/
def tsxDocPost : String := tsxT5

/-- The part of the constructed `html` preview document that precedes the
interpolated code. -/
def htmlDocPre (theme : Theme) : String :=
  let htmlClass := if theme = Theme.dark then "class=\"dark\"" else ""
  let bodyBg := if theme = Theme.dark then "#0f172a" else "#ffffff"
  let textColor := if theme = Theme.dark then "#cbd5e1" else "#334155"
  htmlT1 ++ htmlClass ++ htmlT2 ++ bodyBg ++ htmlT3 ++ textColor ++ htmlT4

/-- The part of the constructed `html` preview document that follows the
interpolated code. -/
def htmlDocPost : String := htmlT5

/-- Decides whether the first character list occurs as a contiguous
sublist of the second. -/
def containsSub (t : List Char) : List Char → Bool
  | [] => isPrefixOfCh t []
  | c :: rest => isPrefixOfCh t (c :: rest) || containsSub t rest

/-- Counts the positions of the second list at which the first list occurs
as a contiguous sublist. -/
def countSub (t : List Char) : List Char → Nat
  | [] => 0
  | c :: rest => (if isPrefixOfCh t (c :: rest) then 1 else 0) + countSub t rest

/-- Decides whether `t` occurs as a contiguous substring of `s`. -/
def strContains (s t : String) : Bool := containsSub t.data s.data

/-- Counts the occurrences of `t` as a contiguous substring of `s`. -/
def strCountSub (s t : String) : Nat := countSub t.data s.data

theorem handleSubmit_guard_fail (s : FormState) (o : CallOutcome)
    (h : jsTrim s.userCode = "") :
    handleSubmit s o = { s with error := some emptyCodeErrorMsg } := by
  simp [handleSubmit, h]

theorem handleSubmit_guard_pass (s : FormState) (o : CallOutcome)
    (h : ¬ jsTrim s.userCode = "") :
    handleSubmit s o = settleOutcome (submitPending s) o := by
  simp [handleSubmit, h]

theorem settleOutcome_isLoading (p : FormState) (o : CallOutcome) :
    (settleOutcome p o).isLoading = false := by
  unfold settleOutcome
  cases getUIImprovementFromCode o <;> rfl

theorem settleOutcome_error (p : FormState) (o : CallOutcome) (msg : String)
    (h : getUIImprovementFromCode o = Except.error msg) (hne : ¬ msg = "") :
    settleOutcome p o = { p with error := some msg, isLoading := false } := by
  simp [settleOutcome, h, hne]

theorem requestStateOf_settle_error (s : FormState) (o : CallOutcome) (msg : String)
    (hs : ¬ jsTrim s.userCode = "")
    (h : getUIImprovementFromCode o = Except.error msg) (hne : ¬ msg = "") :
    requestStateOf (handleSubmit s o) = RequestState.failed msg := by
  rw [handleSubmit_guard_pass s o hs, settleOutcome_error (submitPending s) o msg h hne]
  simp [requestStateOf, submitPending]

/-- Claim C9: every failure of the completion call itself reaches the
orchestrator as a Failed state carrying exactly the message "Failed to get
UI improvement from code. The AI may have been unable to process the
request.". -/
theorem c9_network_failure (s : FormState) (h : ¬ jsTrim s.userCode = "") :
    getUIImprovementFromCode CallOutcome.networkError = Except.error refactorFailedMsg
    ∧ (handleSubmit s CallOutcome.networkError).error = some refactorFailedMsg
    ∧ requestStateOf (handleSubmit s CallOutcome.networkError)
        = RequestState.failed refactorFailedMsg
    ∧ refactorFailedMsg
        = "Failed to get UI improvement from code. The AI may have been unable to process the request." := by
  have hmsg : getUIImprovementFromCode CallOutcome.networkError
      = Except.error refactorFailedMsg := rfl
  have hne : ¬ refactorFailedMsg = "" := by decide
  refine ⟨hmsg, ?_, ?_, rfl⟩
  · rw [handleSubmit_guard_pass s _ h, settleOutcome_error _ _ _ hmsg hne]
  · exact requestStateOf_settle_error s _ _ h hmsg hne

/-- Claim C9 witness: the network call rejects on a concrete non-empty
submission. -/
theorem c9_network_failure_witness :
    requestStateOf (handleSubmit { initialState with userCode := "<div>x</div>" }
        CallOutcome.networkError)
      = RequestState.failed refactorFailedMsg :=
  (c9_network_failure { initialState with userCode := "<div>x</div>" }
    (by decide)).2.2.1

/-- Claim C10: source code that is non-empty but only whitespace is
rejected exactly like empty input: the handler tests the trimmed source,
sets the inline validation error, leaves the loading flag (and every other
field) unchanged, and its result does not depend on any network outcome. -/
theorem c10_whitespace_rejected (s : FormState) (o o' : CallOutcome)
    (hne : ¬ s.userCode = "") (hws : jsTrim s.userCode = "") :
    ¬ s.userCode = ""
    ∧ handleSubmit s o = { s with error := some emptyCodeErrorMsg }
    ∧ (handleSubmit s o).isLoading = s.isLoading
    ∧ handleSubmit s o = handleSubmit s o' := by
  have h1 := handleSubmit_guard_fail s o hws
  have h2 := handleSubmit_guard_fail s o' hws
  refine ⟨hne, h1, ?_, h1.trans h2.symm⟩
  rw [h1]

/-- Claim C10 witness: a single-blank source string is non-empty, trims to
empty, and its submission only sets the validation error. -/
theorem c10_whitespace_rejected_witness :
    handleSubmit c5state CallOutcome.networkError
      = { c5state with error := some emptyCodeErrorMsg } :=
  (c10_whitespace_rejected c5state CallOutcome.networkError CallOutcome.networkError
    (by decide) (by decide)).2.1

theorem strAppendAssoc (a b c : String) : a ++ b ++ c = a ++ (b ++ c) := by
  cases a; cases b; cases c
  show String.mk _ = String.mk _
  simp [String.append]

theorem clientTryBody_ok (text : String) (j : Json)
    (h1 : jsStartsWith (jsTrim text) "\x7b" = true)
    (h2 : jsEndsWith (jsTrim text) "\x7d" = true)
    (hl : (j.getProp "language").isStr "tsx" = true
          ∨ (j.getProp "language").isStr "html" = true) :
    clientTryBody text (some j) = Except.ok j := by
  rcases hl with hl | hl <;> simp [clientTryBody, h1, h2, hl]

theorem getUIImprovement_ok (text : String) (j : Json)
    (h : clientTryBody text (some j) = Except.ok j) :
    getUIImprovementFromCode (CallOutcome.reply text (some j)) = Except.ok j := by
  simp [getUIImprovementFromCode, h]

theorem getUIImprovement_error (text : String) (parsed : Option Json) (f : InnerFailure)
    (h : clientTryBody text parsed = Except.error f) :
    getUIImprovementFromCode (CallOutcome.reply text parsed)
      = Except.error refactorFailedMsg := by
  simp [getUIImprovementFromCode, h]

theorem settleOutcome_ok (p : FormState) (o : CallOutcome) (j : Json)
    (h : getUIImprovementFromCode o = Except.ok j) :
    settleOutcome p o =
      { p with
        improvedCode := j.getProp "improvedCode"
        explanation := j.getProp "explanation"
        language := j.getProp "language"
        dependencies := j.getProp "dependencies"
        isLoading := false } := by
  simp [settleOutcome, h]

/-- Claim C4 (amended): submitting non-empty source enters the pending
state before the call settles, clearing the previous improved code,
explanation, dependencies and error; the detected language is not cleared
and keeps its previous value. -/
theorem c4_pending_keeps_language (s : FormState) (o : CallOutcome)
    (h : ¬ jsTrim s.userCode = "") :
    handleSubmit s o = settleOutcome (submitPending s) o
    ∧ (submitPending s).improvedCode = JsVal.val (Json.str "")
    ∧ (submitPending s).explanation = JsVal.val (Json.str "")
    ∧ (submitPending s).dependencies = JsVal.val (Json.arr [])
    ∧ (submitPending s).error = none
    ∧ (submitPending s).isLoading = true
    ∧ (submitPending s).language = s.language
    ∧ (submitPending s).userCode = s.userCode :=
  ⟨handleSubmit_guard_pass s o h, rfl, rfl, rfl, rfl, rfl, rfl, rfl⟩

/-- Claim C4 witness: the pending-entry updates on a concrete state that
holds a previous result. -/
theorem c4_pending_keeps_language_witness :
    handleSubmit c4state CallOutcome.networkError
      = settleOutcome (submitPending c4state) CallOutcome.networkError
    ∧ (submitPending c4state).language = c4state.language :=
  ⟨(c4_pending_keeps_language c4state CallOutcome.networkError (by decide)).1,
   (c4_pending_keeps_language c4state CallOutcome.networkError (by decide)).2.2.2.2.2.2.1⟩

/-- Claim C4 counterexample: submitting over a previous `html` result
enters the pending state with the detected-language field still holding the
prior result's value, so a field of the prior result stays observable while
the request is pending. -/
theorem c4_counterexample :
    (submitPending c4state).isLoading = true
    ∧ handleSubmit c4state CallOutcome.networkError
        = settleOutcome (submitPending c4state) CallOutcome.networkError
    ∧ (submitPending c4state).language = c4state.language
    ∧ c4state.language = JsVal.val (Json.str "html")
    ∧ (submitPending c4state).language ≠ initialState.language := by
  refine ⟨rfl, handleSubmit_guard_pass c4state CallOutcome.networkError (by decide),
    rfl, rfl, ?_⟩
  intro h
  simp [submitPending, c4state, initialState] at h

/-- Claim C5 (amended): submitting with empty source code is caught before
any network call, sets the inline validation error and never enters the
pending state; submitting with source code whose trimmed form is non-empty
passes exactly once through the pending state (loading set, resubmission
disabled) and settles with loading cleared. -/
theorem c5_submit_guard (s : FormState) (o o' : CallOutcome) :
    (s.userCode = "" →
      handleSubmit s o = { s with error := some emptyCodeErrorMsg }
      ∧ handleSubmit s o = handleSubmit s o'
      ∧ (handleSubmit s o).isLoading = s.isLoading)
    ∧ (¬ jsTrim s.userCode = "" →
      handleSubmit s o = settleOutcome (submitPending s) o
      ∧ (submitPending s).isLoading = true
      ∧ (handleSubmit s o).isLoading = false
      ∧ submitEnabled (submitPending s) = false) := by
  constructor
  · intro h
    have ht : jsTrim s.userCode = "" := by rw [h]; rfl
    have h1 := handleSubmit_guard_fail s o ht
    have h2 := handleSubmit_guard_fail s o' ht
    refine ⟨h1, h1.trans h2.symm, ?_⟩
    rw [h1]
  · intro h
    have h1 := handleSubmit_guard_pass s o h
    refine ⟨h1, rfl, ?_, ?_⟩
    · rw [h1]; exact settleOutcome_isLoading _ _
    · simp [submitEnabled, submitPending]

/-- Claim C5 witness: the empty-source branch on the initial state and the
non-empty branch on a ready state. -/
theorem c5_submit_guard_witness :
    handleSubmit initialState CallOutcome.networkError
      = { initialState with error := some emptyCodeErrorMsg }
    ∧ (submitPending submitReady).isLoading = true :=
  ⟨((c5_submit_guard initialState CallOutcome.networkError
      CallOutcome.networkError).1 rfl).1,
   ((c5_submit_guard submitReady CallOutcome.networkError
      CallOutcome.networkError).2 (by decide)).2.1⟩

/-- Claim C5 counterexample: a single-blank source string is non-empty, yet
its submission is rejected by the trim guard: it only sets the validation
error and never enters the pending state, so "for all non-empty source
code" fails. -/
theorem c5_counterexample :
    c5state.userCode ≠ ""
    ∧ handleSubmit c5state CallOutcome.networkError
        = { c5state with error := some emptyCodeErrorMsg }
    ∧ (handleSubmit c5state CallOutcome.networkError).isLoading = false
    ∧ (settleOutcome (submitPending c5state) CallOutcome.networkError).error
        = some refactorFailedMsg
    ∧ emptyCodeErrorMsg ≠ refactorFailedMsg := by
  have h1 := handleSubmit_guard_fail c5state CallOutcome.networkError (by decide)
  refine ⟨by decide, h1, ?_, rfl, by decide⟩
  rw [h1]
  rfl

/-- Claim C6: the prompt composer is a pure, deterministic function of its
request; the instruction bundle embeds the source code verbatim inside a
fenced block; an empty refactor or style field is replaced by the fixed
placeholder text. -/
theorem c6_prompt_composer :
    (∀ u₁ r₁ s₁ u₂ r₂ s₂ : String, u₁ = u₂ → r₁ = r₂ → s₁ = s₂ →
      fullPrompt u₁ r₁ s₁ = fullPrompt u₂ r₂ s₂)
    ∧ (∀ u r s : String, ∃ a b : String,
        fullPrompt u r s = a ++ ("```\n      " ++ u ++ "\n      ```") ++ b)
    ∧ (∀ u s : String, ∃ a b : String,
        fullPrompt u "" s = a ++ defaultRefactorRequest ++ b)
    ∧ (∀ u r : String, ∃ a b : String,
        fullPrompt u r "" = a ++ defaultStyleRequest ++ b) := by
  refine ⟨?_, ?_, ?_, ?_⟩
  · intro u₁ r₁ s₁ u₂ r₂ s₂ hu hr hs
    rw [hu, hr, hs]
  · intro u r s
    refine ⟨"\n      The user has provided a frontend component. Your task is to identify its language, refactor it based on their requests, and follow all rules in the system instruction.\n\n      **User\x27s Original Code:**\n      ",
      "\n\n      ---\n\n      **User\x27s Refactor Request:** \n      \""
        ++ (if r = "" then defaultRefactorRequest else r) ++ promptT3
        ++ (if s = "" then defaultStyleRequest else s) ++ promptT4, ?_⟩
    rw [fullPrompt,
      show promptT1
        = "\n      The user has provided a frontend component. Your task is to identify its language, refactor it based on their requests, and follow all rules in the system instruction.\n\n      **User\x27s Original Code:**\n      "
          ++ "```\n      " from rfl,
      show promptT2 = "\n      ```" ++ "\n\n      ---\n\n      **User\x27s Refactor Request:** \n      \"" from rfl]
    simp only [strAppendAssoc]
  · intro u s
    refine ⟨promptT1 ++ u ++ promptT2,
      promptT3 ++ (if s = "" then defaultStyleRequest else s) ++ promptT4, ?_⟩
    rw [fullPrompt, if_pos rfl]
    simp only [strAppendAssoc]
  · intro u r
    refine ⟨promptT1 ++ u ++ promptT2
        ++ (if r = "" then defaultRefactorRequest else r) ++ promptT3,
      promptT4, ?_⟩
    rw [fullPrompt, if_pos rfl]

/-- Claim C6 witness: determinism instantiated at a concrete request. -/
theorem c6_prompt_composer_witness :
    fullPrompt "<b>x</b>" "" "minimal" = fullPrompt "<b>x</b>" "" "minimal" :=
  (c6_prompt_composer).1 "<b>x</b>" "" "minimal" "<b>x</b>" "" "minimal" rfl rfl rfl

/-- Claim C7: the `tsx` preview document places the rewritten code inside a
`try` block; after the code, the document checks `typeof
RefactoredComponent`, mounts it into the root node when present, shows the
fixed inline missing-identifier text when absent, and the catch shows any
thrown message inline; and the host request state on a successful reply is
Succeeded regardless of the content of the rewritten code. -/
theorem c7_tsx_preview (code : String) (theme : Theme) :
    iframeContent "tsx" code theme = tsxDocPre theme ++ code ++ tsxDocPost
    ∧ strContains tsxDocPost "if (typeof RefactoredComponent !== \x27undefined\x27) \x7b" = true
    ∧ strContains tsxDocPost "root.render(<RefactoredComponent />);" = true
    ∧ strContains tsxDocPost
        "Error: RefactoredComponent function not found in the generated code." = true
    ∧ strContains tsxDocPost "\x7d catch(e) \x7b" = true
    ∧ strContains tsxDocPost "<strong>Script Error:</strong><br/>" = true
    ∧ strContains tsxDocPost "e.message" = true
    ∧ (∃ a : String, tsxDocPre theme = a ++ "try \x7b\n                                ")
    ∧ (∀ (text : String) (j : Json) (c : String) (s : FormState),
        jsStartsWith (jsTrim text) "\x7b" = true →
        jsEndsWith (jsTrim text) "\x7d" = true →
        j.getProp "language" = JsVal.val (Json.str "tsx") →
        j.getProp "improvedCode" = JsVal.val (Json.str c) →
        ¬ c = "" →
        ¬ jsTrim s.userCode = "" →
        requestStateOf (handleSubmit s (CallOutcome.reply text (some j)))
          = RequestState.succeeded) := by
  refine ⟨rfl, by decide, by decide, by decide, by decide, by decide, by decide, ?_, ?_⟩
  · refine ⟨tsxT1 ++ (if theme = Theme.dark then "class=\"dark\"" else "") ++ tsxT2
        ++ (if theme = Theme.dark then "#0f172a" else "#ffffff") ++ tsxT3
        ++ (if theme = Theme.dark then "#cbd5e1" else "#334155")
        ++ ";\n                                padding: 1rem; \n                                font-family: sans-serif;\n                            \x7d\n                        </style>\n                    </head>\n                    <body>\n                        <div id=\"root\"></div>\n                        <script type=\"text/babel\">\n                            ", ?_⟩
    simp only [tsxDocPre]
    rw [show tsxT4
        = ";\n                                padding: 1rem; \n                                font-family: sans-serif;\n                            \x7d\n                        </style>\n                    </head>\n                    <body>\n                        <div id=\"root\"></div>\n                        <script type=\"text/babel\">\n                            "
          ++ "try \x7b\n                                " from rfl,
      ← strAppendAssoc]
  · intro text j c s h1 h2 hl hic hc hs
    have hisStr : (j.getProp "language").isStr "tsx" = true := by rw [hl]; rfl
    have hclient := getUIImprovement_ok text j
      (clientTryBody_ok text j h1 h2 (Or.inl hisStr))
    rw [handleSubmit_guard_pass s _ hs, settleOutcome_ok _ _ j hclient]
    simp [requestStateOf, submitPending, hic, JsVal.truthy, Json.truthy, hc]

/-- Claim C7 witness: a concrete successful `tsx` reply whose rewritten
code does not even mention `RefactoredComponent` still leaves the host in
the Succeeded state. -/
theorem c7_tsx_preview_witness :
    requestStateOf (handleSubmit submitReady (CallOutcome.reply
        "\x7b\"language\": \"tsx\", \"improvedCode\": \"const x = 1;\"\x7d"
        (some (Json.obj [("language", Json.str "tsx"),
          ("improvedCode", Json.str "const x = 1;")]))))
      = RequestState.succeeded :=
  (c7_tsx_preview "const x = 1;" Theme.light).2.2.2.2.2.2.2.2
    "\x7b\"language\": \"tsx\", \"improvedCode\": \"const x = 1;\"\x7d"
    (Json.obj [("language", Json.str "tsx"), ("improvedCode", Json.str "const x = 1;")])
    "const x = 1;" submitReady (by decide) (by decide) (by rfl) (by rfl)
    (by decide) (by decide)

/-- Claim C8: the `html` preview document embeds the rewritten markup
directly inside the document body between fixed closing tags; its template
loads the Tailwind engine through the single external script tag and
mentions no React runtime, no ReactDOM, no Babel, no mount call and no
`typeof` existence check. -/
theorem c8_html_preview (code : String) (theme : Theme) :
    iframeContent "html" code theme = htmlDocPre theme ++ code ++ htmlDocPost
    ∧ htmlDocPost = "\n                    </body>\n                </html>\n            "
    ∧ strContains (htmlDocPre theme) "https://cdn.tailwindcss.com" = true
    ∧ strCountSub (htmlDocPre theme) "<script src=" = 1
    ∧ strCountSub htmlDocPost "<script" = 0
    ∧ strContains (htmlDocPre theme) "react" = false
    ∧ strContains (htmlDocPre theme) "React" = false
    ∧ strContains (htmlDocPre theme) "babel" = false
    ∧ strContains (htmlDocPre theme) "Babel" = false
    ∧ strContains (htmlDocPre theme) "RefactoredComponent" = false
    ∧ strContains (htmlDocPre theme) "typeof" = false
    ∧ strContains (htmlDocPre theme) "createRoot" = false
    ∧ strContains (htmlDocPre theme) ".render(" = false
    ∧ strContains htmlDocPost "RefactoredComponent" = false
    ∧ strContains htmlDocPost "typeof" = false
    ∧ (∃ a : String, htmlDocPre theme = a ++ "<body>\n                        ") := by
  have hsplit : ∃ a : String, htmlDocPre theme = a ++ "<body>\n                        " := by
    refine ⟨htmlT1 ++ (if theme = Theme.dark then "class=\"dark\"" else "") ++ htmlT2
        ++ (if theme = Theme.dark then "#0f172a" else "#ffffff") ++ htmlT3
        ++ (if theme = Theme.dark then "#cbd5e1" else "#334155")
        ++ ";\n                                font-family: sans-serif;\n                            \x7d\n                        </style>\n                    </head>\n                    ", ?_⟩
    simp only [htmlDocPre]
    rw [show htmlT4
        = ";\n                                font-family: sans-serif;\n                            \x7d\n                        </style>\n                    </head>\n                    "
          ++ "<body>\n                        " from rfl,
      ← strAppendAssoc]
  cases theme <;>
    exact ⟨rfl, rfl, by decide, by decide, by decide, by decide, by decide, by decide,
      by decide, by decide, by decide, by decide, by decide, by decide, by decide, hsplit⟩

/-- Claim C1 (amended): a brace-delimited reply parsing to an object whose
`language` is neither accepted tag makes the try body raise the
invalid-language error, but the outer catch replaces it: the caller
receives the generic failure message and the orchestrator reaches Failed
with that generic message, never Succeeded. -/
theorem c1_invalid_language (text : String) (j : Json)
    (h1 : jsStartsWith (jsTrim text) "\x7b" = true)
    (h2 : jsEndsWith (jsTrim text) "\x7d" = true)
    (hl1 : (j.getProp "language").isStr "tsx" = false)
    (hl2 : (j.getProp "language").isStr "html" = false) :
    clientTryBody text (some j) = Except.error InnerFailure.invalidLanguage
    ∧ InnerFailure.message InnerFailure.invalidLanguage = some invalidLanguageMsg
    ∧ getUIImprovementFromCode (CallOutcome.reply text (some j))
        = Except.error refactorFailedMsg
    ∧ (∀ s : FormState, ¬ jsTrim s.userCode = "" →
        requestStateOf (handleSubmit s (CallOutcome.reply text (some j)))
          = RequestState.failed refactorFailedMsg) := by
  have hbody : clientTryBody text (some j) = Except.error InnerFailure.invalidLanguage := by
    simp [clientTryBody, h1, h2, hl1, hl2]
  have hclient := getUIImprovement_error text (some j) _ hbody
  refine ⟨hbody, rfl, hclient, ?_⟩
  intro s hs
  exact requestStateOf_settle_error s _ _ hs hclient (by decide)

/-- Claim C1 witness: a concrete reply with `language` equal to `'css'`. -/
theorem c1_invalid_language_witness :
    clientTryBody c1text (some c1json) = Except.error InnerFailure.invalidLanguage
    ∧ requestStateOf (handleSubmit submitReady (CallOutcome.reply c1text (some c1json)))
        = RequestState.failed refactorFailedMsg := by
  have h := c1_invalid_language c1text c1json (by decide) (by decide) (by decide) (by decide)
  exact ⟨h.1, h.2.2.2 submitReady (by decide)⟩

/-- Claim C1 counterexample: on a reply with `language` equal to `'css'`,
the error the caller receives is the generic failure message, not the
invalid-language message, and is indistinguishable from a network
rejection; the orchestrator's Failed message is the generic one. -/
theorem c1_counterexample :
    getUIImprovementFromCode (CallOutcome.reply c1text (some c1json))
      = Except.error refactorFailedMsg
    ∧ refactorFailedMsg ≠ invalidLanguageMsg
    ∧ getUIImprovementFromCode (CallOutcome.reply c1text (some c1json))
      = getUIImprovementFromCode CallOutcome.networkError
    ∧ (handleSubmit submitReady (CallOutcome.reply c1text (some c1json))).error
      = some refactorFailedMsg :=
  ⟨rfl, by decide, rfl, rfl⟩

/-- Claim C2 (amended): a reply that is not a single well-formed JSON
object (brace check fails, or the host parser throws) makes the completion
call fail; when the brace check fails the try body raises the fixed
invalid-response error, but in every such case the outer catch replaces it
and the orchestrator reaches Failed with the generic failure message, never
Succeeded. -/
theorem c2_invalid_response (text : String) (parsed : Option Json)
    (h : (jsStartsWith (jsTrim text) "\x7b" && jsEndsWith (jsTrim text) "\x7d") = false
         ∨ parsed = none) :
    getUIImprovementFromCode (CallOutcome.reply text parsed)
      = Except.error refactorFailedMsg
    ∧ ((jsStartsWith (jsTrim text) "\x7b" && jsEndsWith (jsTrim text) "\x7d") = false →
        clientTryBody text parsed = Except.error InnerFailure.invalidResponse)
    ∧ InnerFailure.message InnerFailure.invalidResponse = some invalidResponseMsg
    ∧ (∀ s : FormState, ¬ jsTrim s.userCode = "" →
        requestStateOf (handleSubmit s (CallOutcome.reply text parsed))
          = RequestState.failed refactorFailedMsg) := by
  have herr : ∃ f, clientTryBody text parsed = Except.error f := by
    rcases h with h | h
    · exact ⟨InnerFailure.invalidResponse, by simp [clientTryBody, h]⟩
    · subst h
      by_cases hb : (jsStartsWith (jsTrim text) "\x7b"
          && jsEndsWith (jsTrim text) "\x7d") = true
      · exact ⟨InnerFailure.parseThrown, by simp [clientTryBody, hb]⟩
      · rw [Bool.not_eq_true] at hb
        exact ⟨InnerFailure.invalidResponse, by simp [clientTryBody, hb]⟩
  obtain ⟨f, hf⟩ := herr
  have hclient := getUIImprovement_error text parsed f hf
  refine ⟨hclient, ?_, rfl, ?_⟩
  · intro hb
    simp [clientTryBody, hb]
  · intro s hs
    exact requestStateOf_settle_error s _ _ hs hclient (by decide)

/-- Claim C2 witness: a concrete prose reply on which the host parser
throws. -/
theorem c2_invalid_response_witness :
    getUIImprovementFromCode (CallOutcome.reply c2text none)
      = Except.error refactorFailedMsg
    ∧ requestStateOf (handleSubmit submitReady (CallOutcome.reply c2text none))
        = RequestState.failed refactorFailedMsg := by
  have h := c2_invalid_response c2text none (Or.inr rfl)
  exact ⟨h.1, h.2.2.2 submitReady (by decide)⟩

/-- Claim C2 counterexample: on a prose reply the orchestrator's Failed
message is the generic failure message, which is not the invalid-response
wording and does not even mention an invalid response. -/
theorem c2_counterexample :
    getUIImprovementFromCode (CallOutcome.reply c2text none)
      = Except.error refactorFailedMsg
    ∧ refactorFailedMsg ≠ invalidResponseMsg
    ∧ strContains refactorFailedMsg "invalid response" = false
    ∧ (handleSubmit submitReady (CallOutcome.reply c2text none)).error
      = some refactorFailedMsg :=
  ⟨rfl, by decide, by decide, rfl⟩

/-- Claim C3: a single well-formed object reply with an accepted `language`
and the other three fields present is accepted verbatim: the client returns
the parsed object unchanged and the orchestrator stores exactly its four
fields. -/
theorem c3_round_trip (text : String) (j : Json) (ic ex dp : Json)
    (h1 : jsStartsWith (jsTrim text) "\x7b" = true)
    (h2 : jsEndsWith (jsTrim text) "\x7d" = true)
    (hl : (j.getProp "language").isStr "tsx" = true
          ∨ (j.getProp "language").isStr "html" = true)
    (hic : j.getProp "improvedCode" = JsVal.val ic)
    (hex : j.getProp "explanation" = JsVal.val ex)
    (hdp : j.getProp "dependencies" = JsVal.val dp) :
    getUIImprovementFromCode (CallOutcome.reply text (some j)) = Except.ok j
    ∧ (∀ s : FormState, ¬ jsTrim s.userCode = "" →
        (handleSubmit s (CallOutcome.reply text (some j))).improvedCode = JsVal.val ic
        ∧ (handleSubmit s (CallOutcome.reply text (some j))).explanation = JsVal.val ex
        ∧ (handleSubmit s (CallOutcome.reply text (some j))).language
            = j.getProp "language"
        ∧ (handleSubmit s (CallOutcome.reply text (some j))).dependencies
            = JsVal.val dp) := by
  have hclient := getUIImprovement_ok text j (clientTryBody_ok text j h1 h2 hl)
  refine ⟨hclient, ?_⟩
  intro s hs
  rw [handleSubmit_guard_pass s _ hs, settleOutcome_ok _ _ j hclient]
  exact ⟨hic, hex, rfl, hdp⟩

/-- Claim C3 witness: a concrete well-formed `html` reply is stored
verbatim. -/
theorem c3_round_trip_witness :
    getUIImprovementFromCode (CallOutcome.reply c3text (some c3json)) = Except.ok c3json
    ∧ (handleSubmit submitReady (CallOutcome.reply c3text (some c3json))).improvedCode
        = JsVal.val (Json.str "<button class=\"btn\">Click</button>") := by
  have h := c3_round_trip c3text c3json
    (Json.str "<button class=\"btn\">Click</button>")
    (Json.str "Modernized the button.") (Json.arr [])
    (by decide) (by decide) (Or.inr (by decide)) (by rfl) (by rfl) (by rfl)
  exact ⟨h.1, (h.2 submitReady (by decide)).1⟩

end UIRefactor
